import Mathlib

/-!
The debounced, persisted boot-selection toggle of grub-bootsel-zephyr.

A shallow embedding of `app/src/main.c`.  The firmware keeps one boolean
(`toggle_state`), stores it as the first byte of the file `/NAND:/BOOTSEL`,
flips it on a debounced button press and mirrors it on two LEDs.

The C globals and the hardware the code drives are gathered in `State`; every
function of `main.c` becomes a function on `State`.  The Zephyr calls the code
makes (`fs_open`, `fs_read`, `fs_write`, `fs_close`, `gpio_pin_set_dt`,
`usb_enable`, `k_uptime_get`) are modelled after their documented behaviour;
whether a storage call fails is an input of the model, so that every error
branch of the C code can be exercised.
-/

namespace Bootsel

/-! ## Constants -/

/-- The errno `ENOENT`, no such file or directory. -/
def ENOENT : Int := 2

/-- The errno `EBADF`, returned by Zephyr for an operation on a file object that is not open. -/
def EBADF : Int := 9

/-- Zephyr open flag `FS_O_READ`. -/
def FS_O_READ : Nat := 0x01

/-- Zephyr open flag `FS_O_WRITE`. -/
def FS_O_WRITE : Nat := 0x02

/-- Zephyr open flag `FS_O_CREATE`: create the file when it does not exist. -/
def FS_O_CREATE : Nat := 0x10

/-- The NUL character the read buffer is initialised with (`char buffer[2] = {0}`). -/
def NUL : Char := Char.ofNat 0

/-! ## The storage collaborator -/

/-- A negative errno value, the way a failing Zephyr call reports its error. -/
abbrev Errno := { e : Int // e < 0 }

/-- What the storage does with a one-byte `fs_write`: it writes the byte, it
writes nothing and reports a count of 0 (no space left), or it fails. -/
inductive WriteOutcome where
  | complete
  | short
  | fail (e : Errno)
  deriving DecidableEq

/-- The part of `struct fs_file_t` the code depends on: `mp` is set while the
file object is open, `pos` is the file position. -/
structure fs_file_t where
  mp : Bool
  pos : Nat
  deriving DecidableEq, Repr

/-- The two LEDs of the board. -/
inductive Led where
  | led0
  | led1
  deriving DecidableEq, Repr

/-- The calls the core makes to its collaborators, in program order. -/
inductive Call where
  | fs_open (flags : Nat)
  | fs_read (size : Nat)
  | fs_write (data : List Char)
  | fs_close
  | gpio_pin_set (led : Led) (value : Int)
  | usb_enable
  deriving DecidableEq, Repr

/-- The globals of `main.c` together with the devices it drives.
`disk` is the content of `/NAND:/BOOTSEL` (`none` when the file does not
exist), `led0` and `led1` are the logical levels of the two LEDs, `calls`
records the collaborator calls made so far.  `last_press` is the `int64_t`
static of `button_pressed`; uptimes are non-negative, so the subtraction made
on it never overflows and is modelled in `Int`. -/
structure State where
  toggle_state : Bool
  last_press : Int
  disk : Option (List Char)
  led0 : Bool
  led1 : Bool
  calls : List Call
  deriving DecidableEq

/-- `fs_file_t_init`: a closed file object. -/
def fs_file_t_init : fs_file_t := { mp := false, pos := 0 }

/-- `fs_open` on the record file.  A fault makes the call fail and leaves the
file object closed.  Otherwise an existing file is opened at position 0 with
its content kept (no `FS_O_TRUNC` is ever passed), and a missing file is
created empty under `FS_O_CREATE` and reported as `-ENOENT` without it. -/
def fs_open (fault : Option Errno) (zfp : fs_file_t) (flags : Nat)
    (disk : Option (List Char)) : Int × fs_file_t × Option (List Char) :=
  match fault with
  | some e => (e.val, zfp, disk)
  | none =>
    match disk with
    | some c => (0, { mp := true, pos := 0 }, some c)
    | none =>
      if flags &&& FS_O_CREATE ≠ 0 then (0, { mp := true, pos := 0 }, some [])
      else (-ENOENT, zfp, none)

/-- `fs_read`: on a closed file object `-EBADF`; on a fault the errno; otherwise
up to `size` bytes from the file position, returning how many were read. -/
def fs_read (fault : Option Errno) (zfp : fs_file_t) (size : Nat)
    (disk : Option (List Char)) : Int × List Char × fs_file_t :=
  if zfp.mp = false then (-EBADF, [], zfp)
  else
    match fault with
    | some e => (e.val, [], zfp)
    | none =>
      let got := ((disk.getD []).drop zfp.pos).take size
      ((got.length : Int), got, { zfp with pos := zfp.pos + got.length })

/-- `fs_write`: on a closed file object `-EBADF`; otherwise the bytes replace
the content at the file position (extending the file at its end) and the byte
count is returned, unless the storage writes nothing or fails. -/
def fs_write (out : WriteOutcome) (zfp : fs_file_t) (data : List Char)
    (disk : Option (List Char)) : Int × fs_file_t × Option (List Char) :=
  if zfp.mp = false then (-EBADF, zfp, disk)
  else
    match out with
    | WriteOutcome.fail e => (e.val, zfp, disk)
    | WriteOutcome.short => (0, zfp, disk)
    | WriteOutcome.complete =>
      let c := disk.getD []
      ((data.length : Int), { zfp with pos := zfp.pos + data.length },
        some (c.take zfp.pos ++ data ++ c.drop (zfp.pos + data.length)))

/-- Append a collaborator call to the record of calls. -/
def State.call (s : State) (c : Call) : State :=
  { s with calls := s.calls ++ [c] }

/-! ## The functions of `main.c` -/

/-- `read_state_from_file` (main.c:60-83).  Returns the C return value and the
state after the call.  Only `-ENOENT` is tested after `fs_open`; any other
open failure falls through to `fs_read` on the closed file object. -/
def read_state_from_file (openFault readFault : Option Errno) (s : State) : Int × State :=
  let buffer : List Char := [NUL, NUL]
  let file := fs_file_t_init
  let (ret, file, disk) := fs_open openFault file FS_O_READ s.disk
  let s := ({ s with disk := disk }).call (Call.fs_open FS_O_READ)
  if ret = -ENOENT then (ret, s)
  else
    let (ret, got, _) := fs_read readFault file (buffer.length - 1) s.disk
    let s := s.call (Call.fs_read (buffer.length - 1))
    if ret < 0 then (ret, s.call Call.fs_close)
    else
      let buffer := got ++ buffer.drop got.length
      let s := { s with toggle_state := decide (buffer.head? = some '1') }
      (0, s.call Call.fs_close)

/-- `write_state_to_file` (main.c:85-105).  A failed write is only logged. -/
def write_state_to_file (openFault : Option Errno) (out : WriteOutcome) (s : State) : State :=
  let data : Char := if s.toggle_state then '1' else '0'
  let file := fs_file_t_init
  let (ret, file, disk) := fs_open openFault file (FS_O_CREATE ||| FS_O_WRITE) s.disk
  let s := ({ s with disk := disk }).call (Call.fs_open (FS_O_CREATE ||| FS_O_WRITE))
  if ret ≠ 0 then s
  else
    let (_, _, disk) := fs_write out file [data] s.disk
    let s := ({ s with disk := disk }).call (Call.fs_write [data])
    s.call Call.fs_close

/-- `gpio_pin_set_dt`: a non-zero value drives the LED to its active level. -/
def gpio_pin_set_dt (led : Led) (value : Int) (s : State) : State :=
  let s := s.call (Call.gpio_pin_set led value)
  match led with
  | Led.led0 => { s with led0 := decide (value ≠ 0) }
  | Led.led1 => { s with led1 := decide (value ≠ 0) }

/-- `update_led` (main.c:107-112). -/
def update_led (s : State) : State :=
  let led0_state : Int := if s.toggle_state then 1 else 0
  let s := gpio_pin_set_dt Led.led0 led0_state s
  gpio_pin_set_dt Led.led1 (if led0_state = 0 then 1 else 0) s

/-- `button_pressed` (main.c:114-128); `now` is the value of `k_uptime_get()`. -/
def button_pressed (openFault : Option Errno) (out : WriteOutcome) (now : Int)
    (s : State) : State :=
  if now - s.last_press < 500 then s
  else
    let s := { s with last_press := now }
    let s := { s with toggle_state := !s.toggle_state }
    let s := write_state_to_file openFault out s
    update_led s

/-- What the surroundings of the core do during one boot: the return values of
`setup_disk`, `configure_gpio` and `usb_enable`, and the faults of the load. -/
structure BootEnv where
  setup_disk : Int
  configure_gpio : Int
  openFault : Option Errno
  readFault : Option Errno
  usb_enable : Int

/-- `main` (main.c:209-242).  Returns the C return value and the state. -/
def main (env : BootEnv) (s : State) : Int × State :=
  let ret := env.setup_disk
  if ret < 0 then (ret, s)
  else
    let ret := env.configure_gpio
    if ret < 0 then (ret, s)
    else
      let (ret, s) := read_state_from_file env.openFault env.readFault s
      let s := if ret = -ENOENT then { s with toggle_state := false } else s
      let s := update_led s
      let ret := env.usb_enable
      let s := s.call Call.usb_enable
      if ret ≠ 0 then (ret, s) else (0, s)

/-- The state at process start: the statics hold their initialisers, nothing
has been called yet; the record and the LED levels are whatever they are. -/
def bootState (disk : Option (List Char)) (l0 l1 : Bool) : State :=
  { toggle_state := false, last_press := 0, disk := disk, led0 := l0, led1 := l1, calls := [] }

/-- A boot in which every collaborator works. -/
def okBoot : BootEnv :=
  { setup_disk := 0, configure_gpio := 0, openFault := none, readFault := none, usb_enable := 0 }

/-- A boot in which everything works except that the `fs_read` of the load
fails with `-EIO` (-5). -/
def readFailBoot : BootEnv :=
  { setup_disk := 0, configure_gpio := 0, openFault := none,
    readFault := some ⟨-5, by decide⟩, usb_enable := 0 }

/-- A boot in which everything works except that the `fs_open` of the load
fails with `-EIO` (-5). -/
def openFailBoot : BootEnv :=
  { setup_disk := 0, configure_gpio := 0, openFault := some ⟨-5, by decide⟩,
    readFault := none, usb_enable := 0 }

/-! ## Sequences of raw presses -/

/-- One raw press: the uptime at which the handler runs and what the storage
does if the handler saves. -/
structure Press where
  now : Int
  openFault : Option Errno
  out : WriteOutcome

/-- A raw press at uptime `t` with working storage. -/
def Press.atTime (t : Int) : Press := { now := t, openFault := none, out := WriteOutcome.complete }

/-- Run the handler for one raw press. -/
def press (p : Press) (s : State) : State :=
  button_pressed p.openFault p.out p.now s

/-- The handler produced a logical event: it flipped the toggle state. -/
def accepted (p : Press) (s : State) : Bool :=
  (press p s).toggle_state != s.toggle_state

/-- The state after a sequence of raw presses. -/
def run (s : State) : List Press → State
  | [] => s
  | p :: ps => run (press p s) ps

/-- The uptimes of the raw presses that produced a logical event, in order. -/
def acceptedTimes (s : State) : List Press → List Int
  | [] => []
  | p :: ps =>
    if accepted p s then p.now :: acceptedTimes (press p s) ps
    else acceptedTimes (press p s) ps

/-- The states the device can be in once boot has applied the LED pattern:
`main` got past `setup_disk` and `configure_gpio`, then any raw presses. -/
inductive Reachable : State → Prop where
  | boot (env : BootEnv) (disk : Option (List Char)) (l0 l1 : Bool)
      (hdisk : 0 ≤ env.setup_disk) (hgpio : 0 ≤ env.configure_gpio) :
      Reachable (main env (bootState disk l0 l1)).2
  | step (p : Press) (s : State) (h : Reachable s) : Reachable (press p s)

/-- The byte that encodes a toggle state in the record. -/
def encode (b : Bool) : Char := if b then '1' else '0'

/-- A call that can change the storage: a write, or an open that may create
the file or that opens it for writing. -/
def Call.writes : Call → Bool
  | Call.fs_write _ => true
  | Call.fs_open flags => decide (flags &&& (FS_O_CREATE ||| FS_O_WRITE) ≠ 0)
  | _ => false

/-! ## What one save does -/

theorem write_state_to_file_open_failed (e : Errno) (w : WriteOutcome) (s : State) :
    write_state_to_file (some e) w s
      = { s with calls := s.calls ++ [Call.fs_open (FS_O_CREATE ||| FS_O_WRITE)] } := by
  have h : e.val ≠ 0 := by have := e.property; omega
  simp [write_state_to_file, fs_open, State.call, h]

theorem write_state_to_file_complete (s : State) :
    write_state_to_file none WriteOutcome.complete s
      = { s with
          disk := some (encode s.toggle_state :: (s.disk.getD []).drop 1)
          calls := s.calls ++ [Call.fs_open (FS_O_CREATE ||| FS_O_WRITE),
            Call.fs_write [encode s.toggle_state], Call.fs_close] } := by
  rcases hd : s.disk with _ | c <;>
    simp [write_state_to_file, fs_open, fs_write, fs_file_t_init, State.call, hd, encode,
      FS_O_CREATE, FS_O_WRITE]

theorem write_state_to_file_not_written (w : WriteOutcome) (hw : w ≠ WriteOutcome.complete)
    (s : State) :
    write_state_to_file none w s
      = { s with
          disk := some (s.disk.getD [])
          calls := s.calls ++ [Call.fs_open (FS_O_CREATE ||| FS_O_WRITE),
            Call.fs_write [encode s.toggle_state], Call.fs_close] } := by
  rcases hd : s.disk with _ | c <;> cases w <;>
    simp_all [write_state_to_file, fs_open, fs_write, fs_file_t_init, State.call, encode,
      FS_O_CREATE, FS_O_WRITE]

theorem write_state_to_file_frame (o : Option Errno) (w : WriteOutcome) (s : State) :
    (write_state_to_file o w s).toggle_state = s.toggle_state ∧
    (write_state_to_file o w s).last_press = s.last_press ∧
    (write_state_to_file o w s).led0 = s.led0 ∧
    (write_state_to_file o w s).led1 = s.led1 := by
  rcases o with _ | e
  · by_cases hw : w = WriteOutcome.complete
    · subst hw; simp [write_state_to_file_complete]
    · simp [write_state_to_file_not_written w hw]
  · simp [write_state_to_file_open_failed]

theorem update_led_eq (s : State) :
    update_led s
      = { s with
          led0 := s.toggle_state
          led1 := !s.toggle_state
          calls := s.calls ++ [Call.gpio_pin_set Led.led0 (if s.toggle_state then 1 else 0),
            Call.gpio_pin_set Led.led1 (if s.toggle_state then 0 else 1)] } := by
  cases h : s.toggle_state <;> simp [update_led, gpio_pin_set_dt, State.call, h]

/-! ## What one raw press does -/

theorem button_pressed_rejected (o : Option Errno) (w : WriteOutcome) (now : Int) (s : State)
    (h : now - s.last_press < 500) : button_pressed o w now s = s := by
  simp [button_pressed, h]

theorem button_pressed_accepted (o : Option Errno) (w : WriteOutcome) (now : Int) (s : State)
    (h : 500 ≤ now - s.last_press) :
    button_pressed o w now s
      = update_led (write_state_to_file o w
          { s with last_press := now, toggle_state := !s.toggle_state }) := by
  have h' : ¬ now - s.last_press < 500 := by omega
  simp [button_pressed, h']

theorem button_pressed_accepted_fields (o : Option Errno) (w : WriteOutcome) (now : Int)
    (s : State) (h : 500 ≤ now - s.last_press) :
    (button_pressed o w now s).toggle_state = (!s.toggle_state) ∧
    (button_pressed o w now s).last_press = now ∧
    (button_pressed o w now s).led0 = (!s.toggle_state) ∧
    (button_pressed o w now s).led1 = s.toggle_state := by
  rw [button_pressed_accepted o w now s h, update_led_eq]
  obtain ⟨h1, h2, -, -⟩ := write_state_to_file_frame o w
    { s with last_press := now, toggle_state := !s.toggle_state }
  simp [h1, h2]

theorem accepted_iff (p : Press) (s : State) :
    accepted p s = true ↔ 500 ≤ p.now - s.last_press := by
  by_cases h : 500 ≤ p.now - s.last_press
  · simp [accepted, press, (button_pressed_accepted_fields p.openFault p.out p.now s h).1, h]
  · have h' : p.now - s.last_press < 500 := by omega
    simp [accepted, press, button_pressed_rejected p.openFault p.out p.now s h', h]

theorem acceptedTimes_chain (ps : List Press) :
    ∀ s : State, List.Chain (fun a b : Int => 500 ≤ b - a) s.last_press (acceptedTimes s ps) := by
  induction ps with
  | nil => intro s; simp [acceptedTimes]
  | cons p ps ih =>
    intro s
    by_cases h : 500 ≤ p.now - s.last_press
    · have ha : accepted p s = true := (accepted_iff p s).2 h
      have hl : (press p s).last_press = p.now :=
        (button_pressed_accepted_fields p.openFault p.out p.now s h).2.1
      have := ih (press p s)
      rw [hl] at this
      simp [acceptedTimes, ha, h, this]
    · have ha : accepted p s = false := by
        simpa using (not_congr (accepted_iff p s)).2 h
      have h' : p.now - s.last_press < 500 := by omega
      have hs : press p s = s := button_pressed_rejected p.openFault p.out p.now s h'
      simpa [acceptedTimes, ha, hs] using ih s

theorem acceptedTimes_append (ps qs : List Press) :
    ∀ s : State, acceptedTimes s (ps ++ qs) = acceptedTimes s ps ++ acceptedTimes (run s ps) qs := by
  induction ps with
  | nil => intro s; simp [acceptedTimes, run]
  | cons p ps ih =>
    intro s
    by_cases ha : accepted p s = true <;> simp [acceptedTimes, run, ha, ih]

/-! ## What the boot-time load does -/

theorem read_state_from_file_absent (r : Option Errno) (s : State) (hd : s.disk = none) :
    read_state_from_file none r s
      = (-ENOENT, { s with calls := s.calls ++ [Call.fs_open FS_O_READ] }) := by
  simp [read_state_from_file, fs_open, State.call, hd, FS_O_READ, FS_O_CREATE]

theorem read_state_from_file_present (s : State) (c : List Char) (hd : s.disk = some c) :
    read_state_from_file none none s
      = (0, { s with
              toggle_state := decide (c.head? = some '1')
              calls := s.calls ++ [Call.fs_open FS_O_READ, Call.fs_read 1, Call.fs_close] }) := by
  rcases c with _ | ⟨a, c⟩ <;>
    simp [read_state_from_file, fs_open, fs_read, State.call, hd, ENOENT, NUL]

theorem read_state_from_file_read_failed (e : Errno) (s : State) (c : List Char)
    (hd : s.disk = some c) :
    read_state_from_file none (some e) s
      = (e.val, { s with
              calls := s.calls ++ [Call.fs_open FS_O_READ, Call.fs_read 1, Call.fs_close] }) := by
  have h := e.property
  by_cases he : e.val = -ENOENT <;>
  simp [read_state_from_file, fs_open, fs_read, State.call, hd, ENOENT, h]

theorem read_state_from_file_open_not_found (e : Errno) (r : Option Errno) (s : State)
    (he : e.val = -ENOENT) :
    read_state_from_file (some e) r s
      = (-ENOENT, { s with calls := s.calls ++ [Call.fs_open FS_O_READ] }) := by
  simp [read_state_from_file, fs_open, State.call, he]

theorem read_state_from_file_open_failed (e : Errno) (r : Option Errno) (s : State)
    (he : e.val ≠ -ENOENT) :
    read_state_from_file (some e) r s
      = (-EBADF, { s with
              calls := s.calls ++ [Call.fs_open FS_O_READ, Call.fs_read 1, Call.fs_close] }) := by
  simp [read_state_from_file, fs_open, fs_read, fs_file_t_init, State.call, he, EBADF]

theorem read_state_from_file_frame (o r : Option Errno) (s : State) :
    (read_state_from_file o r s).2.last_press = s.last_press ∧
    (read_state_from_file o r s).2.disk = s.disk ∧
    (read_state_from_file o r s).2.led0 = s.led0 ∧
    (read_state_from_file o r s).2.led1 = s.led1 := by
  rcases o with _ | e
  · rcases hd : s.disk with _ | c
    · simp [read_state_from_file_absent r s hd, hd]
    · rcases r with _ | e
      · simp [read_state_from_file_present s c hd, hd]
      · simp [read_state_from_file_read_failed e s c hd, hd]
  · by_cases he : e.val = -ENOENT
    · simp [read_state_from_file_open_not_found e r s he]
    · simp [read_state_from_file_open_failed e r s he]

theorem read_state_from_file_calls (o r : Option Errno) (s : State) :
    ∃ cs, (read_state_from_file o r s).2.calls = s.calls ++ cs ∧
      ∀ c ∈ cs, c.writes = false := by
  rcases o with _ | e
  · rcases hd : s.disk with _ | c
    · exact ⟨[Call.fs_open FS_O_READ], by rw [read_state_from_file_absent r s hd],
        by simp [Call.writes, FS_O_READ, FS_O_CREATE, FS_O_WRITE]⟩
    · rcases r with _ | e
      · exact ⟨[Call.fs_open FS_O_READ, Call.fs_read 1, Call.fs_close],
          by rw [read_state_from_file_present s c hd],
          by simp [Call.writes, FS_O_READ, FS_O_CREATE, FS_O_WRITE]⟩
      · exact ⟨[Call.fs_open FS_O_READ, Call.fs_read 1, Call.fs_close],
          by rw [read_state_from_file_read_failed e s c hd],
          by simp [Call.writes, FS_O_READ, FS_O_CREATE, FS_O_WRITE]⟩
  · by_cases he : e.val = -ENOENT
    · exact ⟨[Call.fs_open FS_O_READ], by rw [read_state_from_file_open_not_found e r s he],
        by simp [Call.writes, FS_O_READ, FS_O_CREATE, FS_O_WRITE]⟩
    · exact ⟨[Call.fs_open FS_O_READ, Call.fs_read 1, Call.fs_close],
        by rw [read_state_from_file_open_failed e r s he],
        by simp [Call.writes, FS_O_READ, FS_O_CREATE, FS_O_WRITE]⟩

theorem read_state_from_file_zero (o r : Option Errno) (s : State)
    (h : (read_state_from_file o r s).1 = 0) :
    ∃ c, s.disk = some c ∧
      (read_state_from_file o r s).2.toggle_state = decide (c.head? = some '1') := by
  rcases o with _ | e
  · rcases hd : s.disk with _ | c
    · rw [read_state_from_file_absent r s hd] at h
      simp [ENOENT] at h
    · rcases r with _ | e
      · exact ⟨c, rfl, by rw [read_state_from_file_present s c hd]⟩
      · rw [read_state_from_file_read_failed e s c hd] at h
        have := e.property
        simp at h
        omega
  · by_cases he : e.val = -ENOENT
    · rw [read_state_from_file_open_not_found e r s he] at h
      simp [ENOENT] at h
    · rw [read_state_from_file_open_failed e r s he] at h
      simp [EBADF] at h

theorem read_state_from_file_nonzero (o r : Option Errno) (s : State)
    (h : (read_state_from_file o r s).1 ≠ 0) :
    (read_state_from_file o r s).2.toggle_state = s.toggle_state := by
  rcases o with _ | e
  · rcases hd : s.disk with _ | c
    · rw [read_state_from_file_absent r s hd]
    · rcases r with _ | e
      · rw [read_state_from_file_present s c hd] at h
        simp at h
      · rw [read_state_from_file_read_failed e s c hd]
  · by_cases he : e.val = -ENOENT
    · rw [read_state_from_file_open_not_found e r s he]
    · rw [read_state_from_file_open_failed e r s he]

theorem main_booted (env : BootEnv) (s : State) (hdisk : 0 ≤ env.setup_disk)
    (hgpio : 0 ≤ env.configure_gpio) :
    main env s
      = (env.usb_enable,
          (update_led
            (if (read_state_from_file env.openFault env.readFault s).1 = -ENOENT
              then { (read_state_from_file env.openFault env.readFault s).2 with
                      toggle_state := false }
              else (read_state_from_file env.openFault env.readFault s).2)).call
            Call.usb_enable) := by
  have h1 : ¬ env.setup_disk < 0 := by omega
  have h2 : ¬ env.configure_gpio < 0 := by omega
  by_cases hu : env.usb_enable = 0 <;> simp [main, h1, h2, hu]

theorem main_last_press (env : BootEnv) (s : State) :
    (main env s).2.last_press = s.last_press := by
  by_cases h1 : env.setup_disk < 0
  · simp [main, h1]
  · by_cases h2 : env.configure_gpio < 0
    · simp [main, h1, h2]
    · rw [main_booted env s (by omega) (by omega), update_led_eq]
      have h := (read_state_from_file_frame env.openFault env.readFault s).1
      split <;> simp [State.call, h]

theorem press_rejected (p : Press) (s : State) (h : p.now - s.last_press < 500) :
    press p s = s :=
  button_pressed_rejected p.openFault p.out p.now s h

theorem press_last_press (p : Press) (s : State) :
    (press p s).last_press = if accepted p s then p.now else s.last_press := by
  by_cases h : 500 ≤ p.now - s.last_press
  · have ha : accepted p s = true := (accepted_iff p s).2 h
    simp [ha, press, (button_pressed_accepted_fields p.openFault p.out p.now s h).2.1]
  · have ha : accepted p s = false := by simpa using (not_congr (accepted_iff p s)).2 h
    simp [ha, press_rejected p s (by omega)]

theorem acceptedTimes_scenario (s : State) (h : s.last_press = 0) :
    acceptedTimes s [Press.atTime 0, Press.atTime 100, Press.atTime 600] = [600] := by
  have r0 : press (Press.atTime 0) s = s := press_rejected _ s (by simp [Press.atTime, h])
  have r1 : press (Press.atTime 100) s = s := press_rejected _ s (by simp [Press.atTime, h])
  have a0 : accepted (Press.atTime 0) s = false := by
    simpa [Press.atTime, h] using (not_congr (accepted_iff (Press.atTime 0) s))
  have a1 : accepted (Press.atTime 100) s = false := by
    simpa [Press.atTime, h] using (not_congr (accepted_iff (Press.atTime 100) s))
  have a2 : accepted (Press.atTime 600) s = true :=
    (accepted_iff _ s).2 (by simp [Press.atTime, h])
  simp only [acceptedTimes, r0, r1, a0, a1, a2]
  simp [Press.atTime]

/-! ## The claims -/

/-- C1 (round trip): whatever the record held before (absent or present) and
whatever the toggle state is, a save whose open and write succeed followed by
a load returns 0 and leaves the loaded toggle state equal to the saved one.
The load starts from an arbitrary state `t` that sees the saved record. -/
theorem save_then_load_round_trip (s t : State) :
    (read_state_from_file none none
        { t with disk := (write_state_to_file none WriteOutcome.complete s).disk }).1 = 0 ∧
    (read_state_from_file none none
        { t with disk := (write_state_to_file none WriteOutcome.complete s).disk }).2.toggle_state
      = s.toggle_state := by
  rw [write_state_to_file_complete]
  rw [read_state_from_file_present _ (encode s.toggle_state :: (s.disk.getD []).drop 1) rfl]
  cases h : s.toggle_state <;> simp [encode]

/-- C2 (counterexample): from the boot state a raw press at uptime 0 is not
accepted although no logical event has been accepted yet, and the presses at
0, 100 and 600 produce one logical event (at 600), not two. -/
theorem first_press_at_zero_is_dropped :
    accepted (Press.atTime 0) (bootState none false false) = false ∧
    acceptedTimes (bootState none false false)
        [Press.atTime 0, Press.atTime 100, Press.atTime 600] = [600] ∧
    (acceptedTimes (bootState none false false)
        [Press.atTime 0, Press.atTime 100, Press.atTime 600]).length ≠ 2 := by
  decide

/-- C2 (amended): a raw press at uptime `t` produces a logical event exactly
when `t - last_press` is at least 500, where `last_press` is 0 after boot and
becomes the uptime of each accepted press (a rejected press leaves it alone);
so from boot the raw presses at 0, 100 and 600 produce exactly one logical
event, the one at 600. -/
theorem debounce_acceptance_rule (p : Press) (s : State) (env : BootEnv)
    (disk : Option (List Char)) (l0 l1 : Bool) :
    (accepted p s = true ↔ 500 ≤ p.now - s.last_press) ∧
    (press p s).last_press = (if accepted p s then p.now else s.last_press) ∧
    (main env (bootState disk l0 l1)).2.last_press = 0 ∧
    acceptedTimes (main env (bootState disk l0 l1)).2
      [Press.atTime 0, Press.atTime 100, Press.atTime 600] = [600] := by
  have h0 : (main env (bootState disk l0 l1)).2.last_press = 0 := by
    rw [main_last_press]; rfl
  exact ⟨accepted_iff p s, press_last_press p s, h0, acceptedTimes_scenario _ h0⟩

/-- C9 (debounce spacing): for any sequence of raw presses fed to the handler
from any state, two consecutive accepted presses are at least 500 apart, and
the number of accepted presses does not go down when more raw presses are
processed. -/
theorem debounce_spacing (s : State) (ps qs : List Press) :
    List.Chain' (fun a b : Int => 500 ≤ b - a) (acceptedTimes s ps) ∧
    (acceptedTimes s ps).length ≤ (acceptedTimes s (ps ++ qs)).length := by
  constructor
  · have h := acceptedTimes_chain ps s
    exact (show List.Chain' _ (s.last_press :: acceptedTimes s ps) from h).tail
  · rw [acceptedTimes_append]
    simp

/-- C10 (a rejected raw press is a no-op): when the handler runs at an uptime
`now` with `now - last_press < 500`, the whole state is unchanged: toggle
state, `last_press`, record, both LED levels, and the record of collaborator
calls (no storage call and no LED call is made). -/
theorem rejected_press_is_noop (o : Option Errno) (w : WriteOutcome) (now : Int) (s : State)
    (h : now - s.last_press < 500) :
    button_pressed o w now s = s ∧
    (button_pressed o w now s).toggle_state = s.toggle_state ∧
    (button_pressed o w now s).last_press = s.last_press ∧
    (button_pressed o w now s).disk = s.disk ∧
    (button_pressed o w now s).led0 = s.led0 ∧
    (button_pressed o w now s).led1 = s.led1 ∧
    (button_pressed o w now s).calls = s.calls := by
  simp [button_pressed_rejected o w now s h]

/-- Witness for C10: a press at uptime 700, 100 after an accepted press at 600. -/
theorem rejected_press_is_noop_witness :
    button_pressed none WriteOutcome.complete 700
        (button_pressed none WriteOutcome.complete 600 (bootState none false false))
      = button_pressed none WriteOutcome.complete 600 (bootState none false false) :=
  (rejected_press_is_noop none WriteOutcome.complete 700
    (button_pressed none WriteOutcome.complete 600 (bootState none false false))
    (by decide)).1

/-- C3 (the code at the failing input): with the record present and the
boot-time `fs_read` failing with -5, `read_state_from_file` returns -5, yet
`main` goes on, applies the LED pattern, enables USB and returns 0; the same
happens when the boot-time `fs_open` fails with -5, where
`read_state_from_file` returns `-EBADF` instead of the open error. -/
theorem boot_continues_after_failed_load :
    (read_state_from_file readFailBoot.openFault readFailBoot.readFault
        (bootState (some ['1']) false false)).1 = -5 ∧
    (main readFailBoot (bootState (some ['1']) false false)).1 = 0 ∧
    (main readFailBoot (bootState (some ['1']) false false)).2.calls
      = [Call.fs_open FS_O_READ, Call.fs_read 1, Call.fs_close,
         Call.gpio_pin_set Led.led0 0, Call.gpio_pin_set Led.led1 1, Call.usb_enable] ∧
    (read_state_from_file openFailBoot.openFault openFailBoot.readFault
        (bootState (some ['1']) false false)).1 = -EBADF ∧
    (main openFailBoot (bootState (some ['1']) false false)).1 = 0 ∧
    (main openFailBoot (bootState (some ['1']) false false)).2.calls
      = [Call.fs_open FS_O_READ, Call.fs_read 1, Call.fs_close,
         Call.gpio_pin_set Led.led0 0, Call.gpio_pin_set Led.led1 1, Call.usb_enable] := by
  decide

/-- C4 (counterexample): a successful save of `false` over the two-byte record
"10" leaves the two-byte record "00", not the one byte "0". -/
theorem save_keeps_trailing_bytes :
    (write_state_to_file none WriteOutcome.complete
        (bootState (some ['1', '0']) false false)).disk = some ['0', '0'] ∧
    (write_state_to_file none WriteOutcome.complete
        (bootState (some ['1', '0']) false false)).disk ≠ some ['0'] := by
  decide

/-- C4 (amended): after a successful save the first byte of the record is '1'
for true and '0' for false and the bytes after the first are those the record
had before; the record is exactly that one byte precisely when it was absent,
empty or one byte long before. -/
theorem save_overwrites_first_byte (s : State) :
    (write_state_to_file none WriteOutcome.complete s).disk
      = some ((if s.toggle_state then '1' else '0') :: (s.disk.getD []).drop 1) ∧
    ((write_state_to_file none WriteOutcome.complete s).disk
        = some [if s.toggle_state then '1' else '0']
      ↔ (s.disk.getD []).length ≤ 1) := by
  rw [write_state_to_file_complete]
  refine ⟨by simp [encode], ?_⟩
  simp only [encode, Option.some.injEq, List.cons.injEq, true_and]
  rw [List.drop_eq_nil_iff]

/-- C5 (load decoding): with no record, the load returns `-ENOENT` and leaves
the toggle state unchanged; with a record `c` and a working read it returns 0
and the toggle state is true exactly when the first byte of `c` is '1', so an
empty record and every other first byte give false. -/
theorem load_decoding (r : Option Errno) (s : State) (c : List Char) :
    (read_state_from_file none r { s with disk := none }).1 = -ENOENT ∧
    (read_state_from_file none r { s with disk := none }).2.toggle_state = s.toggle_state ∧
    (read_state_from_file none none { s with disk := some c }).1 = 0 ∧
    ((read_state_from_file none none { s with disk := some c }).2.toggle_state = true
      ↔ c.head? = some '1') ∧
    (read_state_from_file none none { s with disk := some [] }).2.toggle_state = false := by
  rw [read_state_from_file_absent r { s with disk := none } rfl,
    read_state_from_file_present { s with disk := some c } c rfl,
    read_state_from_file_present { s with disk := some [] } [] rfl]
  simp

/-- C6 (boot state): in a boot that gets past `setup_disk` and
`configure_gpio`, (a) when the load returns 0 the record exists and the toggle
state after boot is the loaded value, true exactly when the first byte of the
record is '1'; (b) when the record is absent the toggle state after boot is
false, LED-A is off, LED-B is on, the record is still absent and no call that
could change the storage was made; (c) a record "1" gives true without any
press. -/
theorem boot_state (env : BootEnv) (disk : Option (List Char)) (l0 l1 : Bool)
    (hdisk : 0 ≤ env.setup_disk) (hgpio : 0 ≤ env.configure_gpio) :
    ((read_state_from_file env.openFault env.readFault (bootState disk l0 l1)).1 = 0 →
      (main env (bootState disk l0 l1)).2.toggle_state
        = (read_state_from_file env.openFault env.readFault
            (bootState disk l0 l1)).2.toggle_state ∧
      ∃ c, disk = some c ∧
        (main env (bootState disk l0 l1)).2.toggle_state = decide (c.head? = some '1')) ∧
    (disk = none →
      (main env (bootState disk l0 l1)).2.toggle_state = false ∧
      (main env (bootState disk l0 l1)).2.led0 = false ∧
      (main env (bootState disk l0 l1)).2.led1 = true ∧
      (main env (bootState disk l0 l1)).2.disk = none ∧
      ∀ c ∈ (main env (bootState disk l0 l1)).2.calls, c.writes = false) ∧
    (main okBoot (bootState (some ['1']) l0 l1)).2.toggle_state = true := by
  refine ⟨?_, ?_, ?_⟩
  · intro h0
    have hne : ¬ (read_state_from_file env.openFault env.readFault (bootState disk l0 l1)).1
        = -ENOENT := by rw [h0]; simp [ENOENT]
    have hm : (main env (bootState disk l0 l1)).2.toggle_state
        = (read_state_from_file env.openFault env.readFault
            (bootState disk l0 l1)).2.toggle_state := by
      rw [main_booted env _ hdisk hgpio, update_led_eq]
      simp [State.call, hne]
    obtain ⟨c, hc, ht⟩ := read_state_from_file_zero env.openFault env.readFault _ h0
    exact ⟨hm, c, hc, by rw [hm, ht]⟩
  · intro hd
    subst hd
    have hz : (read_state_from_file env.openFault env.readFault (bootState none l0 l1)).1 ≠ 0 := by
      intro h0
      obtain ⟨c, hc, -⟩ := read_state_from_file_zero env.openFault env.readFault _ h0
      simp [bootState] at hc
    have ht := read_state_from_file_nonzero env.openFault env.readFault _ hz
    have hf := read_state_from_file_frame env.openFault env.readFault (bootState none l0 l1)
    obtain ⟨cs, hcs, hw⟩ := read_state_from_file_calls env.openFault env.readFault
      (bootState none l0 l1)
    have hT : (if (read_state_from_file env.openFault env.readFault (bootState none l0 l1)).1
          = -ENOENT
        then { (read_state_from_file env.openFault env.readFault (bootState none l0 l1)).2 with
                toggle_state := false }
        else (read_state_from_file env.openFault env.readFault (bootState none l0 l1)).2)
        = { (read_state_from_file env.openFault env.readFault (bootState none l0 l1)).2 with
                toggle_state := false } := by
      split
      · rfl
      · have : (bootState none l0 l1).toggle_state = false := rfl
        rw [this] at ht
        rw [← ht]
    rw [main_booted env _ hdisk hgpio, hT, update_led_eq]
    refine ⟨by simp [State.call], by simp [State.call], by simp [State.call], ?_, ?_⟩
    · simp only [State.call]
      exact hf.2.1
    · intro c hc
      have hcs' : (read_state_from_file env.openFault env.readFault
          (bootState none l0 l1)).2.calls = cs := hcs
      simp only [State.call, hcs', List.mem_append, List.mem_cons,
        List.mem_singleton, List.not_mem_nil, or_false] at hc
      rcases hc with (hc | hc | hc) | hc
      · exact hw c hc
      · subst hc; rfl
      · subst hc; rfl
      · subst hc; rfl
  · cases l0 <;> cases l1 <;> decide

/-- Witness for C6: the working boot over the record "1" and over no record. -/
theorem boot_state_witness :
    (main okBoot (bootState (some ['1']) false false)).2.toggle_state
        = (read_state_from_file okBoot.openFault okBoot.readFault
            (bootState (some ['1']) false false)).2.toggle_state ∧
    (main okBoot (bootState none true false)).2.led1 = true :=
  ⟨((boot_state okBoot (some ['1']) false false (by decide) (by decide)).1 (by decide)).1,
   ((boot_state okBoot none true false (by decide) (by decide)).2.1 rfl).2.2.1⟩

/-- C7 (toggle transition): for every state and whatever the storage does, an
accepted press (`now - last_press` at least 500) flips the toggle state, first
calls `fs_open` for the save and, when that open succeeds, `fs_write` with the
byte of the new value, and ends by setting LED-A to the new value and LED-B to
its complement; a failed open or write changes none of this, the toggle state
stays flipped. -/
theorem accepted_press_toggles (o : Option Errno) (w : WriteOutcome) (now : Int) (s : State)
    (h : 500 ≤ now - s.last_press) :
    (button_pressed o w now s).toggle_state = (!s.toggle_state) ∧
    (button_pressed o w now s).last_press = now ∧
    (button_pressed o w now s).led0 = (!s.toggle_state) ∧
    (button_pressed o w now s).led1 = s.toggle_state ∧
    ∃ mid,
      (button_pressed o w now s).calls
        = s.calls ++ (Call.fs_open (FS_O_CREATE ||| FS_O_WRITE) :: mid)
            ++ [Call.gpio_pin_set Led.led0 (if (!s.toggle_state) = true then 1 else 0),
                Call.gpio_pin_set Led.led1 (if (!s.toggle_state) = true then 0 else 1)] ∧
      (o = none →
        mid = [Call.fs_write [if (!s.toggle_state) = true then '1' else '0'], Call.fs_close]) ∧
      (o ≠ none → mid = []) := by
  obtain ⟨h1, h2, h3, h4⟩ := button_pressed_accepted_fields o w now s h
  refine ⟨h1, h2, h3, h4, ?_⟩
  have hts := (write_state_to_file_frame o w
    { s with last_press := now, toggle_state := !s.toggle_state }).1
  rw [button_pressed_accepted o w now s h, update_led_eq, hts]
  rcases o with _ | e
  · refine ⟨[Call.fs_write [if (!s.toggle_state) = true then '1' else '0'], Call.fs_close],
      ?_, fun _ => rfl, fun hne => absurd rfl hne⟩
    by_cases hw : w = WriteOutcome.complete
    · subst hw
      simp [write_state_to_file_complete, encode]
    · simp [write_state_to_file_not_written w hw, encode]
  · refine ⟨[], ?_, fun hn => by simp at hn, fun _ => rfl⟩
    simp [write_state_to_file_open_failed]

/-- Witness for C7: the press at uptime 600 from the boot state, with the
write failing. -/
theorem accepted_press_toggles_witness :
    (button_pressed none (WriteOutcome.fail ⟨-5, by decide⟩) 600
        (bootState none false false)).toggle_state = true ∧
    (button_pressed none (WriteOutcome.fail ⟨-5, by decide⟩) 600
        (bootState none false false)).led0 = true :=
  ⟨(accepted_press_toggles none (WriteOutcome.fail ⟨-5, by decide⟩) 600
      (bootState none false false) (by decide)).1,
   (accepted_press_toggles none (WriteOutcome.fail ⟨-5, by decide⟩) 600
      (bootState none false false) (by decide)).2.2.1⟩

/-- C8 (state/indicator consistency): in every state reachable by a boot that
applied the LED pattern followed by any raw presses, accepted or not, LED-A is
on exactly when the toggle state is true and LED-B has the complementary
level, so exactly one of the two LEDs is on. -/
theorem led_matches_toggle_state (s : State) (h : Reachable s) :
    s.led0 = s.toggle_state ∧ s.led1 = (!s.toggle_state) ∧ s.led0 ≠ s.led1 := by
  have key : s.led0 = s.toggle_state ∧ s.led1 = (!s.toggle_state) := by
    induction h with
    | boot env disk l0 l1 hdisk hgpio =>
      rw [main_booted env _ hdisk hgpio, update_led_eq]
      simp [State.call]
    | step p s _ ih =>
      by_cases hp : 500 ≤ p.now - s.last_press
      · obtain ⟨h1, -, h3, h4⟩ := button_pressed_accepted_fields p.openFault p.out p.now s hp
        simp only [press]
        rw [h1, h3, h4]
        simp
      · rw [press_rejected p s (by omega)]
        exact ih
  refine ⟨key.1, key.2, ?_⟩
  rw [key.1, key.2]
  cases s.toggle_state <;> simp

/-- Witness for C8: the state after a working boot without record and one
accepted press at uptime 600. -/
theorem led_matches_toggle_state_witness :
    (press (Press.atTime 600) (main okBoot (bootState none false false)).2).led0
        = (press (Press.atTime 600) (main okBoot (bootState none false false)).2).toggle_state ∧
    (press (Press.atTime 600) (main okBoot (bootState none false false)).2).led1
        = (!(press (Press.atTime 600) (main okBoot (bootState none false false)).2).toggle_state) :=
  ⟨(led_matches_toggle_state _
      (Reachable.step (Press.atTime 600) _
        (Reachable.boot okBoot none false false (by decide) (by decide)))).1,
   (led_matches_toggle_state _
      (Reachable.step (Press.atTime 600) _
        (Reachable.boot okBoot none false false (by decide) (by decide)))).2.1⟩

end Bootsel
